import Mathlib

/-!
Verification of the `pymino.ext.account` module (file `src/pymino/ext/account.py`).

The module is a stateless HTTP client: each method of the `Account` class
builds a JSON (or raw-bytes) payload and delegates it to
`self.session.handler(method, url, data, content_type)`.  We embed the payload
builders as pure Lean functions over a small JSON value type, with the two
external collaborators (`device_id()` and `time()`) passed in explicitly as
arguments, mirroring the call sites.  The `Account` object itself is embedded
as a record whose `userId` field is optional, because `Account.__init__` sets
only `session` and `debug` and `userId` is only ever set externally.
-/

/-- JSON values, as produced by the Python dict literals in `account.py`. -/
inductive JValue where
  | null : JValue
  | bool (b : Bool) : JValue
  | num (n : Int) : JValue
  | str (s : String) : JValue
  | obj (fields : List (String × JValue)) : JValue
deriving Repr

mutual
/-- Structural equality of JSON values (decidable equality is written by hand
because automatic derivation does not handle the nested `List`). -/
def JValue.beq : JValue → JValue → Bool
  | .null, .null => true
  | .bool a, .bool b => a == b
  | .num a, .num b => a == b
  | .str a, .str b => a == b
  | .obj fs, .obj gs => JValue.beqFields fs gs
  | _, _ => false

/-- Structural equality of JSON object field lists. -/
def JValue.beqFields : List (String × JValue) → List (String × JValue) → Bool
  | [], [] => true
  | (k, v) :: fs, (k', v') :: gs =>
    k == k' && JValue.beq v v' && JValue.beqFields fs gs
  | _, _ => false
end
mutual
theorem JValue.beq_iff : ∀ a b : JValue, JValue.beq a b = true ↔ a = b
  | .null, .null => by simp [JValue.beq]
  | .bool a, .bool b => by simp [JValue.beq]
  | .num a, .num b => by simp [JValue.beq]
  | .str a, .str b => by simp [JValue.beq]
  | .obj fs, .obj gs => by
    simp only [JValue.beq, JValue.beqFields_iff fs gs, JValue.obj.injEq]
  | .null, .bool _ | .null, .num _ | .null, .str _ | .null, .obj _
  | .bool _, .null | .bool _, .num _ | .bool _, .str _ | .bool _, .obj _
  | .num _, .null | .num _, .bool _ | .num _, .str _ | .num _, .obj _
  | .str _, .null | .str _, .bool _ | .str _, .num _ | .str _, .obj _
  | .obj _, .null | .obj _, .bool _ | .obj _, .num _ | .obj _, .str _ => by
    simp [JValue.beq]

theorem JValue.beqFields_iff :
    ∀ fs gs : List (String × JValue), JValue.beqFields fs gs = true ↔ fs = gs
  | [], [] => by simp [JValue.beqFields]
  | (k, v) :: fs, (k', v') :: gs => by
    simp [JValue.beqFields, JValue.beq_iff v v', JValue.beqFields_iff fs gs,
      and_assoc]
  | [], _ :: _ => by simp [JValue.beqFields]
  | _ :: _, [] => by simp [JValue.beqFields]
end

instance : DecidableEq JValue := fun a b =>
  decidable_of_iff (JValue.beq a b = true) (JValue.beq_iff a b)

/-- Key lookup in a JSON object's field list (first match wins, as in a
Python dict where every key below is written once). -/
def lookupKey (k : String) : List (String × JValue) → Option JValue
  | [] => none
  | (k', v) :: rest => if k' = k then some v else lookupKey k rest

/-- The list of keys of a JSON object's field list. -/
def objKeys (fields : List (String × JValue)) : List String :=
  fields.map Prod.fst

/-- The body handed to `session.handler`: absent (GET requests), a JSON
object (`data={...}`), or raw bytes (`data=open(image,"rb").read()`). -/
inductive Body where
  | empty : Body
  | json (fields : List (String × JValue)) : Body
  | bytes (bs : List Nat) : Body
deriving DecidableEq, Repr

/-- The request passed to the transport collaborator
`session.handler(method, url, data, content_type)`. -/
structure Request where
  method : String
  url : String
  body : Body
  content_type : Option String
deriving DecidableEq, Repr

/-- The external `Session` collaborator; its internals are irrelevant to the
payloads built by `account.py`, so it is an opaque tag. -/
structure Session where
  tag : Nat
deriving DecidableEq, Repr

/-- The attribute state of an `Account` instance.  `userId` is `none` unless
set externally: no code in `account.py` assigns it. -/
structure Account where
  session : Session
  debug : Bool
  userId : Option String
deriving Repr

/-- `Account.__init__(self, session, debug=False)`: sets only `session` and
`debug`; in particular `userId` is left unset. -/
def Account.init (session : Session) (debug : Bool) : Account :=
  { session := session, debug := debug, userId := none }

/-! ### Payload builders, one per method of `Account`.

`dev` stands for a value returned by `device_id()` at that call site and
`ts` for `int(time() * 1000)` (milliseconds since epoch) at that call site. -/

/-- The `data` dict of `Account.register` (POST `/g/s/auth/register`). -/
def register_data (email password username verificationCode dev : String)
    (ts : Int) : List (String × JValue) :=
  [ ("secret", .str ("0 " ++ password)),
    ("deviceID", .str dev),
    ("email", .str email),
    ("clientType", .num 100),
    ("nickname", .str username),
    ("validationContext", .obj
      [ ("data", .obj [("code", .str verificationCode)]),
        ("type", .num 1),
        ("identity", .str email) ]),
    ("type", .num 1),
    ("identity", .str email),
    ("timestamp", .num ts) ]

/-- The request issued by `Account.register`. -/
def register_request (email password username verificationCode dev : String)
    (ts : Int) : Request :=
  { method := "POST", url := "/g/s/auth/register",
    body := .json (register_data email password username verificationCode dev ts),
    content_type := none }

/-- The `data` dict of `Account.delete_request`
(POST `/g/s/account/delete-request`). -/
def delete_request_data (email password dev : String) (ts : Int) :
    List (String × JValue) :=
  [ ("secret", .str ("0 " ++ password)),
    ("deviceID", .str dev),
    ("email", .str email),
    ("timestamp", .num ts) ]

/-- The request issued by `Account.delete_request`. -/
def delete_request_request (email password dev : String) (ts : Int) : Request :=
  { method := "POST", url := "/g/s/account/delete-request",
    body := .json (delete_request_data email password dev ts),
    content_type := none }

/-- The request issued by `Account.delete_request_cancel`; its `data` dict has
the same shape as `delete_request`. -/
def delete_request_cancel_request (email password dev : String) (ts : Int) :
    Request :=
  { method := "POST", url := "/g/s/account/delete-request/cancel",
    body := .json (delete_request_data email password dev ts),
    content_type := none }

/-- The `data` dict of `Account.check_device` (POST `/g/s/device/check`);
`deviceId` is the caller-supplied argument, not a fresh `device_id()`. -/
def check_device_data (deviceId : String) (ts : Int) : List (String × JValue) :=
  [ ("deviceID", .str deviceId),
    ("clientType", .num 100),
    ("timezone", .num (-310)),
    ("systemPushEnabled", .bool true),
    ("timestamp", .num ts) ]

/-- The request issued by `Account.check_device`. -/
def check_device_request (deviceId : String) (ts : Int) : Request :=
  { method := "POST", url := "/g/s/device/check",
    body := .json (check_device_data deviceId ts),
    content_type := none }

/-- The request issued by `Account.fetch_account` (GET `/g/s/account`,
no body). -/
def fetch_account_request : Request :=
  { method := "GET", url := "/g/s/account", body := .empty, content_type := none }

/-- The request issued by `Account.upload_image`: the bytes read from the
image file are passed through unmodified as the body, with content type
`image/jpg`. -/
def upload_image_request (imageBytes : List Nat) : Request :=
  { method := "POST", url := "/g/s/media/upload",
    body := .bytes imageBytes,
    content_type := some "image/jpg" }

/-- The request issued by `Account.fetch_profile`, given the value `u` of
`self.userId` (GET `/g/s/user-profile/{userId}`). -/
def fetch_profile_request (u : String) : Request :=
  { method := "GET", url := "/g/s/user-profile/" ++ u,
    body := .empty, content_type := none }

/-- The `data` dict of `Account.set_amino_id`
(POST `/g/s/account/change-amino-id`). -/
def set_amino_id_data (aminoId : String) (ts : Int) : List (String × JValue) :=
  [ ("aminoId", .str aminoId),
    ("timestamp", .num ts) ]

/-- The request issued by `Account.set_amino_id`. -/
def set_amino_id_request (aminoId : String) (ts : Int) : Request :=
  { method := "POST", url := "/g/s/account/change-amino-id",
    body := .json (set_amino_id_data aminoId ts),
    content_type := none }

/-- The request issued by `Account.fetch_wallet` (GET `/g/s/wallet`,
no body). -/
def fetch_wallet_request : Request :=
  { method := "GET", url := "/g/s/wallet", body := .empty, content_type := none }

/-- The `data` dict of `Account.request_security_validation`
(POST `/g/s/auth/request-security-validation`).  The Python source writes
`"level": 2 if resetPassword else None` and
`"purpose": "reset-password" if resetPassword else None`: both keys are always
present, with JSON `null` values when `resetPassword` is false. -/
def request_security_validation_data (email : String) (resetPassword : Bool)
    (dev : String) (ts : Int) : List (String × JValue) :=
  [ ("identity", .str email),
    ("type", .num 1),
    ("deviceID", .str dev),
    ("level", if resetPassword then .num 2 else .null),
    ("purpose", if resetPassword then .str "reset-password" else .null),
    ("timestamp", .num ts) ]

/-- The request issued by `Account.request_security_validation`. -/
def request_security_validation_request (email : String) (resetPassword : Bool)
    (dev : String) (ts : Int) : Request :=
  { method := "POST", url := "/g/s/auth/request-security-validation",
    body := .json (request_security_validation_data email resetPassword dev ts),
    content_type := none }

/-- The `data` dict of `Account.activate_email`
(POST `/g/s/auth/activate-email`). -/
def activate_email_data (email code dev : String) (ts : Int) :
    List (String × JValue) :=
  [ ("type", .num 1),
    ("identity", .str email),
    ("data", .obj [("code", .str code)]),
    ("deviceID", .str dev),
    ("timestamp", .num ts) ]

/-- The request issued by `Account.activate_email`. -/
def activate_email_request (email code dev : String) (ts : Int) : Request :=
  { method := "POST", url := "/g/s/auth/activate-email",
    body := .json (activate_email_data email code dev ts),
    content_type := none }

/-- The `data` dict of `Account.reset_password`
(POST `/g/s/auth/reset-password`).  `device_id()` is called twice, once for
the nested `emailValidationContext` (`dev1`) and once at top level (`dev2`);
no top-level `timestamp` key is written. -/
def reset_password_data (email new_password code dev1 dev2 : String) :
    List (String × JValue) :=
  [ ("updateSecret", .str ("0 " ++ new_password)),
    ("emailValidationContext", .obj
      [ ("data", .obj [("code", .str code)]),
        ("type", .num 1),
        ("identity", .str email),
        ("level", .num 2),
        ("deviceID", .str dev1) ]),
    ("phoneNumberValidationContext", .null),
    ("deviceID", .str dev2) ]

/-- The request issued by `Account.reset_password`. -/
def reset_password_request (email new_password code dev1 dev2 : String) :
    Request :=
  { method := "POST", url := "/g/s/auth/reset-password",
    body := .json (reset_password_data email new_password code dev1 dev2),
    content_type := none }

/-! ### Response side, modelled from the spec.

The response decoders (`SResponse`, `Authenticate`, `Wallet`, `ResetPassword`)
and the transport error handling live in `pymino/ext/generate`, which is not
among the sources of this file; the definitions below follow the spec. -/

/-- Modelled from the spec: the raw response produced by the transport
collaborator, an HTTP status plus a decoded JSON body (`generate` module,
not among the sources). -/
structure RawResponse where
  status : Nat
  json : List (String × JValue)
deriving Repr

/-- Modelled from the spec: the three error kinds of §7 — TransportError
(connectivity/timeout/TLS), ApiError (remote non-success status or error
envelope, carrying the remote numeric code and message), ValidationError
(caller omitted a required field).  The error classes live in the
`generate` module, not among the sources. -/
inductive ClientError where
  | transportError (message : String) : ClientError
  | apiError (code : Int) (message : String) : ClientError
  | validationError (message : String) : ClientError
deriving Repr

/-- Modelled from the spec: the platform error envelope of a JSON body — a
nonzero numeric status code together with a message, whose code and message
must be preserved verbatim (§7: "a JSON body containing the platform's error
envelope ... with the remote's numeric code and message preserved"). -/
def errorEnvelope (body : List (String × JValue)) : Option (Int × String) :=
  match lookupKey "api:statuscode" body, lookupKey "api:message" body with
  | some (.num c), some (.str m) => if c = 0 then none else some (c, m)
  | _, _ => none

/-- Modelled from the spec (§7): classification of a transport outcome.  A
transport-level failure surfaces as `transportError`; a response whose body
carries the error envelope, or whose HTTP status is ≥ 400, surfaces as
`apiError` with the envelope's code and message when present (the bare
status otherwise); anything else is a success carrying the decoded body. -/
def classifyResponse (outcome : Except String RawResponse) :
    Except ClientError (List (String × JValue)) :=
  match outcome with
  | .error m => .error (.transportError m)
  | .ok r =>
    match errorEnvelope r.json with
    | some (c, m) => .error (.apiError c m)
    | none =>
      if 400 ≤ r.status then .error (.apiError (Int.ofNat r.status) "")
      else .ok r.json

/-- Modelled from the spec: `SResponse.mediaValue` (defined in the `generate`
module, not among the sources) extracts the media URL field from the decoded
JSON response; `upload_image` returns it rather than the full response. -/
def SResponse_mediaValue (json : List (String × JValue)) : Option JValue :=
  lookupKey "mediaValue" json

/-- The value returned by `Account.upload_image` for a successful decoded
response: the `mediaValue` field, not the whole body. -/
def upload_image_result (json : List (String × JValue)) : Option JValue :=
  SResponse_mediaValue json

/-! ### Operations as a step function over the `Account` state. -/

/-- One call to a method of the `Account` class, with its arguments
(`uploadImage` carries the bytes read from the image file). -/
inductive Op where
  | register (email password username verificationCode : String) : Op
  | deleteRequest (email password : String) : Op
  | deleteRequestCancel (email password : String) : Op
  | checkDevice (deviceId : String) : Op
  | fetchAccount : Op
  | uploadImage (imageBytes : List Nat) : Op
  | fetchProfile : Op
  | setAminoId (aminoId : String) : Op
  | fetchWallet : Op
  | requestSecurityValidation (email : String) (resetPassword : Bool) : Op
  | activateEmail (email code : String) : Op
  | resetPassword (email newPassword code : String) : Op
deriving DecidableEq, Repr

/-- The values the external collaborators supply during one call: the results
of the (up to two) `device_id()` calls and of `int(time() * 1000)`. -/
structure Externals where
  dev1 : String
  dev2 : String
  ts : Int
deriving DecidableEq, Repr

/-- An error raised inside a method body before the transport is reached.
Reading the missing attribute `self.userId` in `fetch_profile` raises
Python's `AttributeError`. -/
inductive OpError where
  | attributeError (name : String) : OpError
deriving DecidableEq, Repr

/-- One method call on an `Account` instance: the request handed to
`session.handler` (or the error raised before any request is built), paired
with the attribute state after the call.  No method of the class assigns any
attribute, so the state is returned unchanged in every branch. -/
def runOp (a : Account) (e : Externals) : Op → Except OpError Request × Account
  | .register email password username verificationCode =>
    (.ok (register_request email password username verificationCode e.dev1 e.ts), a)
  | .deleteRequest email password =>
    (.ok (delete_request_request email password e.dev1 e.ts), a)
  | .deleteRequestCancel email password =>
    (.ok (delete_request_cancel_request email password e.dev1 e.ts), a)
  | .checkDevice deviceId =>
    (.ok (check_device_request deviceId e.ts), a)
  | .fetchAccount =>
    (.ok fetch_account_request, a)
  | .uploadImage imageBytes =>
    (.ok (upload_image_request imageBytes), a)
  | .fetchProfile =>
    match a.userId with
    | some u => (.ok (fetch_profile_request u), a)
    | none => (.error (.attributeError "userId"), a)
  | .setAminoId aminoId =>
    (.ok (set_amino_id_request aminoId e.ts), a)
  | .fetchWallet =>
    (.ok fetch_wallet_request, a)
  | .requestSecurityValidation email resetPassword =>
    (.ok (request_security_validation_request email resetPassword e.dev1 e.ts), a)
  | .activateEmail email code =>
    (.ok (activate_email_request email code e.dev1 e.ts), a)
  | .resetPassword email newPassword code =>
    (.ok (reset_password_request email newPassword code e.dev1 e.dev2), a)

/-- A sequence of calls on one `Account` instance, threading the attribute
state; yields the trace of transport requests (or pre-transport errors). -/
def runOps (a : Account) : List (Externals × Op) → List (Except OpError Request) × Account
  | [] => ([], a)
  | (e, op) :: rest =>
    let step := runOp a e op
    let next := runOps step.2 rest
    (step.1 :: next.1, next.2)

/-- No method of `Account` assigns any attribute: every call returns the
attribute state it started from. -/
theorem runOp_state_eq (a : Account) (e : Externals) (op : Op) :
    (runOp a e op).2 = a := by
  cases op <;> simp [runOp]
  case fetchProfile => cases a.userId <;> simp

/-- Running a sequence of calls leaves the attribute state unchanged. -/
theorem runOps_state_eq (a : Account) (l : List (Externals × Op)) :
    (runOps a l).2 = a := by
  induction l generalizing a with
  | nil => rfl
  | cons p rest ih =>
    obtain ⟨e, op⟩ := p
    simp [runOps, runOp_state_eq, ih]

/-- The trace of a concatenated call sequence is the concatenation of the
traces each half produces from the same initial state. -/
theorem runOps_append (a : Account) (l₁ l₂ : List (Externals × Op)) :
    (runOps a (l₁ ++ l₂)).1 = (runOps a l₁).1 ++ (runOps a l₂).1 := by
  induction l₁ generalizing a with
  | nil => simp [runOps]
  | cons p rest ih =>
    obtain ⟨e, op⟩ := p
    simp [runOps, runOp_state_eq, ih]

/-! ### Claims -/

/-- C1: for every password `p`, `register` places `secret = "0 " ++ p` in its
request payload, and for every new password `p`, `reset_password` places
`updateSecret = "0 " ++ p` in its request payload. -/
theorem C1_secret_prefix (email username verificationCode dev code dev1 dev2 :
    String) (ts : Int) (p : String) :
    lookupKey "secret" (register_data email p username verificationCode dev ts)
      = some (.str ("0 " ++ p)) ∧
    lookupKey "updateSecret" (reset_password_data email p code dev1 dev2)
      = some (.str ("0 " ++ p)) := by
  constructor <;> simp [register_data, reset_password_data, lookupKey]

/-- C2 counterexample: the claim asserts that `set_amino_id`'s payload
contains a `deviceID` field; at the concrete input `aminoId = "a"`, `ts = 5`
the payload's keys are exactly `aminoId` and `timestamp`, and the `deviceID`
lookup is empty. -/
theorem C2_counterexample :
    lookupKey "deviceID" (set_amino_id_data "a" 5) = none ∧
    objKeys (set_amino_id_data "a" 5) = ["aminoId", "timestamp"] := by
  constructor
  · simp [set_amino_id_data, lookupKey]
  · rfl

/-- C2 (amended): every JSON-payload POST operation attaches a millisecond
`timestamp` and a per-call-generated `deviceID`, except: `check_device` uses
the caller-supplied device id, `reset_password` has no top-level `timestamp`,
`set_amino_id` sends only `aminoId` and `timestamp` with no `deviceID`, and
`upload_image` sends a raw-bytes body carrying neither field. -/
theorem C2_timestamp_and_deviceID
    (email password username verificationCode aminoId code deviceId dev dev1
      dev2 : String) (resetPassword : Bool) (ts : Int) (imageBytes : List Nat) :
    (lookupKey "timestamp"
        (register_data email password username verificationCode dev ts)
      = some (.num ts) ∧
     lookupKey "deviceID"
        (register_data email password username verificationCode dev ts)
      = some (.str dev)) ∧
    (lookupKey "timestamp" (delete_request_data email password dev ts)
      = some (.num ts) ∧
     lookupKey "deviceID" (delete_request_data email password dev ts)
      = some (.str dev)) ∧
    (lookupKey "timestamp" (check_device_data deviceId ts) = some (.num ts) ∧
     lookupKey "deviceID" (check_device_data deviceId ts)
      = some (.str deviceId)) ∧
    (lookupKey "timestamp" (set_amino_id_data aminoId ts) = some (.num ts) ∧
     lookupKey "deviceID" (set_amino_id_data aminoId ts) = none) ∧
    (lookupKey "timestamp"
        (request_security_validation_data email resetPassword dev ts)
      = some (.num ts) ∧
     lookupKey "deviceID"
        (request_security_validation_data email resetPassword dev ts)
      = some (.str dev)) ∧
    (lookupKey "timestamp" (activate_email_data email code dev ts)
      = some (.num ts) ∧
     lookupKey "deviceID" (activate_email_data email code dev ts)
      = some (.str dev)) ∧
    (lookupKey "timestamp" (reset_password_data email password code dev1 dev2)
      = none ∧
     lookupKey "deviceID" (reset_password_data email password code dev1 dev2)
      = some (.str dev2)) ∧
    (upload_image_request imageBytes).body = .bytes imageBytes := by
  refine ⟨⟨?_, ?_⟩, ⟨?_, ?_⟩, ⟨?_, ?_⟩, ⟨?_, ?_⟩, ⟨?_, ?_⟩, ⟨?_, ?_⟩,
    ⟨?_, ?_⟩, rfl⟩ <;>
  simp [register_data, delete_request_data, check_device_data,
    set_amino_id_data, request_security_validation_data, activate_email_data,
    reset_password_data, lookupKey]

/-- C3: `reset_password` sends exactly `updateSecret = "0 " ++ newPassword`,
`emailValidationContext` with `data.code`, `type = 1`, `identity = email`,
`level = 2` and a `deviceID`, `phoneNumberValidationContext = null`, and a
top-level `deviceID` — and its payload has no top-level `timestamp` key. -/
theorem C3_reset_password_payload (email newPassword code dev1 dev2 : String) :
    reset_password_request email newPassword code dev1 dev2 =
      { method := "POST", url := "/g/s/auth/reset-password",
        body := .json
          [ ("updateSecret", .str ("0 " ++ newPassword)),
            ("emailValidationContext", .obj
              [ ("data", .obj [("code", .str code)]),
                ("type", .num 1),
                ("identity", .str email),
                ("level", .num 2),
                ("deviceID", .str dev1) ]),
            ("phoneNumberValidationContext", .null),
            ("deviceID", .str dev2) ],
        content_type := none } ∧
    lookupKey "timestamp" (reset_password_data email newPassword code dev1 dev2)
      = none := by
  constructor
  · rfl
  · simp [reset_password_data, lookupKey]

/-- C4: `request_security_validation` with `resetPassword = true` sets
`level = 2` and `purpose = "reset-password"`; with `resetPassword = false`
both keys are present with explicit `null` values (not omitted); the
remaining fields `identity`, `type`, `deviceID`, `timestamp` coincide between
the two cases. -/
theorem C4_request_security_validation_levels (email dev : String) (ts : Int) :
    lookupKey "level" (request_security_validation_data email true dev ts)
      = some (.num 2) ∧
    lookupKey "purpose" (request_security_validation_data email true dev ts)
      = some (.str "reset-password") ∧
    lookupKey "level" (request_security_validation_data email false dev ts)
      = some .null ∧
    lookupKey "purpose" (request_security_validation_data email false dev ts)
      = some .null ∧
    "level" ∈ objKeys (request_security_validation_data email false dev ts) ∧
    "purpose" ∈ objKeys (request_security_validation_data email false dev ts) ∧
    (∀ k, k ∈ ["identity", "type", "deviceID", "timestamp"] →
      lookupKey k (request_security_validation_data email false dev ts)
        = lookupKey k (request_security_validation_data email true dev ts)) := by
  refine ⟨?_, ?_, ?_, ?_, ?_, ?_, ?_⟩ <;>
    simp [request_security_validation_data, lookupKey, objKeys]

/-- C5: `check_device` with device id `d` issues `POST /g/s/device/check`
with exactly the payload `deviceID = d`, `clientType = 100`,
`timezone = -310`, `systemPushEnabled = true`, `timestamp = ts`, and no
other keys. -/
theorem C5_check_device_payload (d : String) (ts : Int) :
    check_device_request d ts =
      { method := "POST", url := "/g/s/device/check",
        body := .json
          [ ("deviceID", .str d),
            ("clientType", .num 100),
            ("timezone", .num (-310)),
            ("systemPushEnabled", .bool true),
            ("timestamp", .num ts) ],
        content_type := none } ∧
    objKeys (check_device_data d ts) =
      ["deviceID", "clientType", "timezone", "systemPushEnabled",
       "timestamp"] := by
  exact ⟨rfl, rfl⟩

/-- C6: `upload_image` sends exactly the image bytes, unmodified, as the raw
body of a POST to the media upload endpoint with content type `image/jpg`,
and returns the `mediaValue` field extracted from the decoded JSON response
rather than the full response. -/
theorem C6_upload_image_passthrough (b : List Nat)
    (resp : List (String × JValue)) :
    (upload_image_request b).method = "POST" ∧
    (upload_image_request b).url = "/g/s/media/upload" ∧
    (upload_image_request b).body = .bytes b ∧
    (upload_image_request b).content_type = some "image/jpg" ∧
    upload_image_result resp = lookupKey "mediaValue" resp := by
  exact ⟨rfl, rfl, rfl, rfl, rfl⟩

/-- C7: every transport outcome classifies as either a success carrying the
decoded body or exactly one of the three error kinds; any response with
HTTP status ≥ 400 or an error envelope in its body classifies as an
`apiError`, and when the envelope is present its numeric code and message
are carried verbatim. -/
theorem C7_error_taxonomy :
    (∀ outcome : Except String RawResponse,
      (∃ v, classifyResponse outcome = .ok v) ∨
      (∃ m, classifyResponse outcome = .error (.transportError m)) ∨
      (∃ c m, classifyResponse outcome = .error (.apiError c m)) ∨
      (∃ m, classifyResponse outcome = .error (.validationError m))) ∧
    (∀ r : RawResponse, 400 ≤ r.status ∨ (errorEnvelope r.json).isSome →
      ∃ c m, classifyResponse (.ok r) = .error (.apiError c m)) ∧
    (∀ (r : RawResponse) (c : Int) (m : String),
      errorEnvelope r.json = some (c, m) →
      classifyResponse (.ok r) = .error (.apiError c m)) := by
  refine ⟨?_, ?_, ?_⟩
  · intro outcome
    match outcome with
    | .error m => exact Or.inr (Or.inl ⟨m, rfl⟩)
    | .ok r =>
      match henv : errorEnvelope r.json with
      | some (c, m) =>
        exact Or.inr (Or.inr (Or.inl ⟨c, m, by simp [classifyResponse, henv]⟩))
      | none =>
        by_cases hs : 400 ≤ r.status
        · exact Or.inr (Or.inr (Or.inl
            ⟨Int.ofNat r.status, "", by simp [classifyResponse, henv, hs]⟩))
        · exact Or.inl ⟨r.json, by simp [classifyResponse, henv, hs]⟩
  · intro r h
    match henv : errorEnvelope r.json with
    | some (c, m) => exact ⟨c, m, by simp [classifyResponse, henv]⟩
    | none =>
      rcases h with hs | hsome
      · exact ⟨Int.ofNat r.status, "", by simp [classifyResponse, henv, hs]⟩
      · rw [henv] at hsome
        exact absurd hsome (by simp)
  · intro r c m henv
    simp [classifyResponse, henv]

/-- C7 witness: a status-500 empty-body response and an envelope-bearing
status-200 response both classify as `apiError`, the latter carrying the
envelope's code and message verbatim. -/
theorem C7_error_taxonomy_witness :
    (∃ c m, classifyResponse (.ok ⟨500, []⟩) = .error (.apiError c m)) ∧
    classifyResponse
        (.ok ⟨200, [("api:statuscode", .num 104), ("api:message", .str "Invalid request")]⟩)
      = .error (.apiError 104 "Invalid request") ∧
    (∃ v, classifyResponse (.ok ⟨200, [("ok", .bool true)]⟩) = .ok v) ∨
    (∃ m, classifyResponse (.ok ⟨200, [("ok", .bool true)]⟩)
      = .error (.transportError m)) ∨
    (∃ c m, classifyResponse (.ok ⟨200, [("ok", .bool true)]⟩)
      = .error (.apiError c m)) ∨
    (∃ m, classifyResponse (.ok ⟨200, [("ok", .bool true)]⟩)
      = .error (.validationError m)) := by
  left
  refine ⟨C7_error_taxonomy.2.1 ⟨500, []⟩ (Or.inl (by norm_num)), ?_, ?_⟩
  · exact C7_error_taxonomy.2.2 ⟨200, _⟩ 104 "Invalid request"
      (by simp [errorEnvelope, lookupKey])
  · rcases C7_error_taxonomy.1 (.ok ⟨200, [("ok", .bool true)]⟩) with h | h | h | h
    · exact h
    · exact absurd h (by simp [classifyResponse, errorEnvelope, lookupKey])
    · exact absurd h (by simp [classifyResponse, errorEnvelope, lookupKey])
    · exact absurd h (by simp [classifyResponse, errorEnvelope, lookupKey])

/-- C8: at the failing input — `register` called with an empty verification
code — the method builds the full payload (carrying the empty code inside
`validationContext`) and hands it to the transport: the call yields a
request, not a validation error, so no check precedes payload construction. -/
theorem C8_register_sends_despite_missing_code :
    (runOp (Account.init ⟨0⟩ false) ⟨"dev", "dev", 0⟩
        (.register "user@example.com" "pw" "user" "")).1
      = .ok (register_request "user@example.com" "pw" "user" "" "dev" 0) ∧
    lookupKey "validationContext"
        (register_data "user@example.com" "pw" "user" "" "dev" 0)
      = some (.obj
          [ ("data", .obj [("code", .str "")]),
            ("type", .num 1),
            ("identity", .str "user@example.com") ]) := by
  constructor
  · rfl
  · simp [register_data, lookupKey]

/-- C9: calling `fetch_account` (or `fetch_wallet`) twice issues two
independent identical GET requests with no cached result; no operation
changes the attribute state, so the trace of any call sequence is the
concatenation of the traces of its parts taken from the same initial
state — the requests of a call do not depend on the preceding calls. -/
theorem C9_stateless_independence (a : Account) (e1 e2 : Externals)
    (pre calls : List (Externals × Op)) :
    (runOps a [(e1, .fetchAccount), (e2, .fetchAccount)]).1
      = [.ok fetch_account_request, .ok fetch_account_request] ∧
    (runOps a [(e1, .fetchWallet), (e2, .fetchWallet)]).1
      = [.ok fetch_wallet_request, .ok fetch_wallet_request] ∧
    (runOps a (pre ++ calls)).1 = (runOps a pre).1 ++ (runOps a calls).1 ∧
    (runOps a pre).2 = a := by
  refine ⟨?_, ?_, runOps_append a pre calls, runOps_state_eq a pre⟩ <;>
    simp [runOps, runOp]

/-- C10: `Account.__init__` sets only `session` and `debug`, no operation
ever assigns `userId`, and on such a freshly constructed instance
`fetch_profile` fails with an attribute error on `userId` while every other
operation produces a request. -/
theorem C10_fetch_profile_needs_external_userId (s : Session) (d : Bool)
    (e : Externals) (op : Op) (hop : op ≠ Op.fetchProfile) :
    (Account.init s d).userId = none ∧
    (runOp (Account.init s d) e .fetchProfile).1
      = .error (.attributeError "userId") ∧
    (∃ r, (runOp (Account.init s d) e op).1 = .ok r) ∧
    (∀ (a : Account) (e' : Externals) (op' : Op),
      ((runOp a e' op').2).userId = a.userId) := by
  refine ⟨rfl, ?_, ?_, ?_⟩
  · simp [runOp, Account.init]
  · cases op <;> first
      | exact ⟨_, rfl⟩
      | exact absurd rfl hop
  · intro a e' op'
    rw [runOp_state_eq]

/-- C10 witness: on a freshly constructed account, `fetch_profile` raises the
attribute error while `fetch_wallet` succeeds. -/
theorem C10_fetch_profile_needs_external_userId_witness :
    (Account.init ⟨0⟩ false).userId = none ∧
    (runOp (Account.init ⟨0⟩ false) ⟨"d1", "d2", 7⟩ .fetchProfile).1
      = .error (.attributeError "userId") ∧
    (∃ r, (runOp (Account.init ⟨0⟩ false) ⟨"d1", "d2", 7⟩ .fetchWallet).1
      = .ok r) ∧
    (∀ (a : Account) (e' : Externals) (op' : Op),
      ((runOp a e' op').2).userId = a.userId) :=
  C10_fetch_profile_needs_external_userId ⟨0⟩ false ⟨"d1", "d2", 7⟩
    .fetchWallet (by decide)
